import Mathlib

/-!
Verification development for the watermark tool (src/watermark_exif.py).

The Python source is shallowly embedded below.  Pure helpers become Lean
functions; library calls (datetime.strptime / strftime, Pillow ImageColor,
Pillow image operations, font loading) are modelled at the granularity the
source uses them, with the observable behavior the source depends on.
Machine integers are Nat / Int (Python integers are unbounded, so no
wrap-around modelling is needed).
-/

set_option maxRecDepth 4000

/- ## Character helpers (shared by the strptime and color models) -/

/-- True on an ASCII decimal digit, as matched by the regex class d. -/
def isDigitB (c : Char) : Bool := 48 ≤ c.toNat && c.toNat ≤ 57

/-- Numeric value of an ASCII digit character. -/
def digitVal (c : Char) : Nat := c.toNat - 48

/-- ASCII digit character for a value below ten. -/
def digitChar (k : Nat) : Char := Char.ofNat (48 + k)

/-- Whitespace as matched by the regex class s (ASCII part; the values the
program meets are ASCII). -/
def isWS (c : Char) : Bool :=
  c.toNat = 32 || c.toNat = 9 || c.toNat = 10 || c.toNat = 13 || c.toNat = 11 || c.toNat = 12

/-- Model of str.lower restricted to ASCII letters (the position keywords
and color strings this program lowercases are ASCII). -/
def pyLowerChar (c : Char) : Char :=
  if 65 ≤ c.toNat && c.toNat ≤ 90 then Char.ofNat (c.toNat + 32) else c

/-- Model of str.lower on a string. -/
def pyLower (s : String) : String := String.mk (s.data.map pyLowerChar)

/- ## Model of datetime.strptime for the two fixed formats of the source

CPython compiles the format to a regex: percent-Y becomes exactly four
digits, the two-digit numeric fields become one-or-two digits (greedy with
local backtracking), a literal separator matches itself, and a whitespace
run in the format matches one or more whitespace characters; the regex must
consume the whole input.  The successfully matched fields are then passed to
the datetime constructor, which range-checks them. -/

structure PyDateTime where
  year : Nat
  month : Nat
  day : Nat
  hour : Nat
  minute : Nat
  second : Nat
deriving DecidableEq, Repr

/-- Match one-or-two digits followed by the literal separator, consuming the
separator.  Because the separator is never itself a digit, the greedy
two-digit attempt with backtracking reduces to this direct case split. -/
def takeNumSep (sep : Char) : List Char → Option (Nat × List Char)
  | a :: b :: c :: rest =>
    if isDigitB a then
      if isDigitB b && (c = sep) then some (10 * digitVal a + digitVal b, rest)
      else if b = sep then some (digitVal a, c :: rest)
      else none
    else none
  | [a, b] => if isDigitB a && (b = sep) then some (digitVal a, []) else none
  | _ => none

/-- Drop a leading run of whitespace characters. -/
def dropWS : List Char → List Char
  | [] => []
  | c :: rest => if isWS c then dropWS rest else c :: rest

/-- Match one-or-two digits followed by at least one whitespace character,
consuming the whole whitespace run. -/
def takeNumWS : List Char → Option (Nat × List Char)
  | a :: b :: rest =>
    if isDigitB a then
      if isDigitB b then
        match rest with
        | c :: rest2 => if isWS c then some (10 * digitVal a + digitVal b, dropWS rest2) else none
        | [] => none
      else if isWS b then some (digitVal a, dropWS rest)
      else none
    else none
  | _ => none

/-- Match one-or-two digits at the very end of the input. -/
def takeNumEnd : List Char → Option Nat
  | [a] => if isDigitB a then some (digitVal a) else none
  | [a, b] => if isDigitB a && isDigitB b then some (10 * digitVal a + digitVal b) else none
  | _ => none

/-- Raw regex phase of strptime for the format Y sep m sep d blank H colon
M colon S, where sep is the date separator (colon for the canonical EXIF
format, hyphen for the tolerant retry). -/
def parseRawYMDHMS (dateSep : Char) (l : List Char) : Option PyDateTime :=
  match l with
  | y1 :: y2 :: y3 :: y4 :: c :: rest =>
    if isDigitB y1 && isDigitB y2 && isDigitB y3 && isDigitB y4 && (c = dateSep) then
      match takeNumSep dateSep rest with
      | some mo =>
        match takeNumWS mo.2 with
        | some da =>
          match takeNumSep ':' da.2 with
          | some ho =>
            match takeNumSep ':' ho.2 with
            | some mi =>
              match takeNumEnd mi.2 with
              | some se =>
                some { year := 1000 * digitVal y1 + 100 * digitVal y2 + 10 * digitVal y3 + digitVal y4,
                       month := mo.1, day := da.1, hour := ho.1, minute := mi.1, second := se }
              | none => none
            | none => none
          | none => none
        | none => none
      | none => none
    else none
  | _ => none

/-- Gregorian leap-year rule, as used by the datetime module. -/
def isLeapYear (y : Nat) : Bool := y % 4 = 0 && (y % 100 ≠ 0 || y % 400 = 0)

/-- Length of a month, as validated by the datetime constructor. -/
def daysInMonth (y m : Nat) : Nat :=
  match m with
  | 1 => 31
  | 2 => if isLeapYear y then 29 else 28
  | 3 => 31
  | 4 => 30
  | 5 => 31
  | 6 => 30
  | 7 => 31
  | 8 => 31
  | 9 => 30
  | 10 => 31
  | 11 => 30
  | 12 => 31
  | _ => 0

/-- Range checks performed by the datetime constructor on the parsed fields. -/
def validPyDateTime (dt : PyDateTime) : Bool :=
  decide (1 ≤ dt.year) && decide (dt.year ≤ 9999) &&
  decide (1 ≤ dt.month) && decide (dt.month ≤ 12) &&
  decide (1 ≤ dt.day) && decide (dt.day ≤ daysInMonth dt.year dt.month) &&
  decide (dt.hour ≤ 23) && decide (dt.minute ≤ 59) && decide (dt.second ≤ 59)

/-- Model of datetime.strptime at the two formats used by the source:
regex phase followed by constructor range checks; None models the
ValueError the source catches. -/
def strptimeYMDHMS (dateSep : Char) (s : String) : Option PyDateTime :=
  match parseRawYMDHMS dateSep s.data with
  | some dt => if validPyDateTime dt then some dt else none
  | none => none

/-- Decimal digits of a number in the range reachable here (at most 9999,
enforced upstream by the four-digit year pattern), without padding. -/
def natDecimal (n : Nat) : List Char :=
  if n < 10 then [digitChar n]
  else if n < 100 then [digitChar (n / 10), digitChar (n % 10)]
  else if n < 1000 then [digitChar (n / 100), digitChar (n / 10 % 10), digitChar (n % 10)]
  else [digitChar (n / 1000 % 10), digitChar (n / 100 % 10), digitChar (n / 10 % 10), digitChar (n % 10)]

/-- Model of strftime at the fixed date format of the source.  Month and
day are zero-padded to two digits; the year is printed as a plain decimal
number, because CPython delegates the year directive to the platform C
library, which does not zero-pad years below 1000 (verified against the
reference interpreter on glibc). -/
def strftimeYMD (dt : PyDateTime) : String :=
  String.mk (natDecimal dt.year ++
             ['-', digitChar (dt.month / 10 % 10), digitChar (dt.month % 10), '-',
              digitChar (dt.day / 10 % 10), digitChar (dt.day % 10)])

/- ## Model of the EXIF container and get_exif_date (source lines 18-52) -/

/-- Model of str.replace with a count: replace the first k occurrences of a
colon by a hyphen (source line 45 uses count 2). -/
def replaceColonsFirst (k : Nat) : List Char → List Char
  | [] => []
  | c :: rest =>
    if c = ':' && decide (0 < k) then '-' :: replaceColonsFirst (k - 1) rest
    else c :: replaceColonsFirst k rest

/-- A raw EXIF tag value: piexif hands back bytes for ASCII tags; any other
value is passed through str (modelled by the string constructor, since str
is the identity on strings). -/
inductive RawValue where
  | bytes (bs : List Nat)
  | str (s : String)
deriving DecidableEq

/-- Continuation byte test for the UTF-8 decoder. -/
def isCont (b : Nat) : Bool := 128 ≤ b && b ≤ 191

/-- Second-byte constraint of a three-byte UTF-8 sequence (excludes overlong
forms and surrogates). -/
def utf8Cont3Ok (b b1 : Nat) : Bool :=
  if b = 224 then 160 ≤ b1 && b1 ≤ 191
  else if b = 237 then 128 ≤ b1 && b1 ≤ 159
  else isCont b1

/-- Second-byte constraint of a four-byte UTF-8 sequence. -/
def utf8Cont4Ok (b b1 : Nat) : Bool :=
  if b = 240 then 144 ≤ b1 && b1 ≤ 191
  else if b = 244 then 128 ≤ b1 && b1 ≤ 143
  else isCont b1

/-- Work loop of the UTF-8 decoder.  Every step consumes at least one byte,
so a fuel equal to the byte count is always enough; the fuel only serves to
make the recursion structural. -/
def utf8DecodeIgnoreAux : Nat → List Nat → List Char
  | 0, _ => []
  | _ + 1, [] => []
  | fuel + 1, b :: rest =>
    if b < 128 then Char.ofNat b :: utf8DecodeIgnoreAux fuel rest
    else if 194 ≤ b && b ≤ 223 then
      match rest with
      | b1 :: rest1 =>
        if isCont b1 then Char.ofNat ((b - 192) * 64 + (b1 - 128)) :: utf8DecodeIgnoreAux fuel rest1
        else utf8DecodeIgnoreAux fuel (b1 :: rest1)
      | [] => []
    else if 224 ≤ b && b ≤ 239 then
      match rest with
      | b1 :: b2 :: rest2 =>
        if utf8Cont3Ok b b1 && isCont b2 then
          Char.ofNat ((b - 224) * 4096 + (b1 - 128) * 64 + (b2 - 128)) :: utf8DecodeIgnoreAux fuel rest2
        else utf8DecodeIgnoreAux fuel (b1 :: b2 :: rest2)
      | _ => []
    else if 240 ≤ b && b ≤ 244 then
      match rest with
      | b1 :: b2 :: b3 :: rest3 =>
        if utf8Cont4Ok b b1 && isCont b2 && isCont b3 then
          Char.ofNat ((b - 240) * 262144 + (b1 - 128) * 4096 + (b2 - 128) * 64 + (b3 - 128)) :: utf8DecodeIgnoreAux fuel rest3
        else utf8DecodeIgnoreAux fuel (b1 :: b2 :: b3 :: rest3)
      | _ => []
    else utf8DecodeIgnoreAux fuel rest

/-- Model of bytes.decode with the ignore error handler: well-formed UTF-8
sequences decode, malformed bytes are skipped instead of raising. -/
def utf8DecodeIgnore (l : List Nat) : List Char := utf8DecodeIgnoreAux l.length l

/-- Text extraction of source lines 34-37: decode bytes as UTF-8 ignoring
errors, otherwise apply str. -/
def decodeRaw : RawValue → String
  | RawValue.bytes bs => String.mk (utf8DecodeIgnore bs)
  | RawValue.str s => s

/-- Python truthiness of a raw tag value (source line 33): empty bytes and
the empty string are falsy. -/
def truthyRaw : RawValue → Bool
  | RawValue.bytes bs => decide (bs ≠ [])
  | RawValue.str s => decide (s ≠ "")

/-- The EXIF dictionary returned by piexif.load: group name to (tag id to
raw value), both levels modelled as association lists with first-key-wins
lookup (dictionaries have unique keys, so this is conservative). -/
def ExifDict : Type := List (String × List (Nat × RawValue))

/-- Model of exif_dict.get(ifd_name, empty dict). -/
def dictGetIFD (exif : ExifDict) (name : String) : List (Nat × RawValue) :=
  match List.lookup name exif with
  | some d => d
  | none => []

/-- The fixed priority-ordered candidate list of source lines 25-29, with
the concrete piexif tag numbers: DateTimeOriginal 36867, DateTimeDigitized
36868 (both in the Exif IFD), DateTime 306 (0th IFD). -/
def candidatesList : List (String × Nat) :=
  [("Exif", 36867), ("Exif", 36868), ("0th", 306)]

/-- The tolerant retry of source lines 44-47: replace the first two colons
by hyphens and parse as Y-m-d H:M:S, returning the formatted date. -/
def tolerant_fallback_parse (s : String) : Option String :=
  match strptimeYMDHMS '-' (String.mk (replaceColonsFirst 2 s.data)) with
  | some dt => some (strftimeYMD dt)
  | none => none

/-- The per-value parse of source lines 39-49: canonical colon format first,
then the tolerant retry; None models falling through to continue. -/
def parse_tag_value (s : String) : Option String :=
  match strptimeYMDHMS ':' s with
  | some dt => some (strftimeYMD dt)
  | none => tolerant_fallback_parse s

/-- Loop body of source lines 30-51 for one candidate tag: fetch the value,
test truthiness, decode and parse; None means the loop continues. -/
def candidate_date (exif : ExifDict) (c : String × Nat) : Option String :=
  match List.lookup c.2 (dictGetIFD exif c.1) with
  | some v => if truthyRaw v then parse_tag_value (decodeRaw v) else none
  | none => none

/-- The candidate loop of source lines 30-51: first candidate whose body
produces a date wins, all other candidates fall through. -/
def scanCandidates (exif : ExifDict) : List (String × Nat) → Option String
  | [] => none
  | c :: rest =>
    match candidate_date exif c with
    | some d => some d
    | none => scanCandidates exif rest

/-- Source lines 18-52: get_exif_date.  The input is None when piexif.load
raised (unreadable or absent metadata block, caught at lines 20-23). -/
def get_exif_date : Option ExifDict → Option String
  | none => none
  | some exif => scanCandidates exif candidatesList

/-- Source lines 55-57: fallback_file_date formats the filesystem
last-modified time.  The input is the calendar representation of the
timestamp as produced by datetime.fromtimestamp. -/
def fallback_file_date (mtime : PyDateTime) : String := strftimeYMD mtime

/-- Python or on an optional string against a string default (source line
139): the left operand wins unless it is falsy (None or empty). -/
def pyOrStr (a : Option String) (b : String) : String :=
  match a with
  | some s => if s = "" then b else s
  | none => b

/-- Source line 139: date_text is get_exif_date or fallback_file_date. -/
def resolve_date (meta : Option ExifDict) (mtime : PyDateTime) : String :=
  pyOrStr (get_exif_date meta) (fallback_file_date mtime)

/-- Range checks on a calendar date (the date part of the datetime
constructor checks). -/
def validCalendarNums (y m d : Nat) : Bool :=
  decide (1 ≤ y) && decide (1 ≤ m) && decide (m ≤ 12) &&
  decide (1 ≤ d) && decide (d ≤ daysInMonth y m)

/-- Checker for the output shape promised by the spec: ten characters, four
digits, hyphen, two digits, hyphen, two digits, and the three numbers form
a real calendar date. -/
def isValidDateString (s : String) : Bool :=
  match s.data with
  | [y1, y2, y3, y4, h1, m1, m2, h2, d1, d2] =>
    isDigitB y1 && isDigitB y2 && isDigitB y3 && isDigitB y4 &&
    decide (h1 = '-') && isDigitB m1 && isDigitB m2 && decide (h2 = '-') &&
    isDigitB d1 && isDigitB d2 &&
    validCalendarNums (1000 * digitVal y1 + 100 * digitVal y2 + 10 * digitVal y3 + digitVal y4)
      (10 * digitVal m1 + digitVal m2) (10 * digitVal d1 + digitVal d2)
  | _ => false

/-- Relaxed output-shape checker: an unpadded year of one to four digits,
then hyphen, two-digit month, hyphen, two-digit day, the numbers forming a
real calendar date.  This is the shape the resolver actually guarantees on
the reference platform. -/
def isValidDateStringRelaxed (s : String) : Bool :=
  match s.data with
  | [y1, y2, y3, y4, h1, m1, m2, h2, d1, d2] =>
    isDigitB y1 && isDigitB y2 && isDigitB y3 && isDigitB y4 &&
    decide (h1 = '-') && isDigitB m1 && isDigitB m2 && decide (h2 = '-') &&
    isDigitB d1 && isDigitB d2 &&
    validCalendarNums (1000 * digitVal y1 + 100 * digitVal y2 + 10 * digitVal y3 + digitVal y4)
      (10 * digitVal m1 + digitVal m2) (10 * digitVal d1 + digitVal d2)
  | [y1, y2, y3, h1, m1, m2, h2, d1, d2] =>
    isDigitB y1 && isDigitB y2 && isDigitB y3 &&
    decide (h1 = '-') && isDigitB m1 && isDigitB m2 && decide (h2 = '-') &&
    isDigitB d1 && isDigitB d2 &&
    validCalendarNums (100 * digitVal y1 + 10 * digitVal y2 + digitVal y3)
      (10 * digitVal m1 + digitVal m2) (10 * digitVal d1 + digitVal d2)
  | [y1, y2, h1, m1, m2, h2, d1, d2] =>
    isDigitB y1 && isDigitB y2 &&
    decide (h1 = '-') && isDigitB m1 && isDigitB m2 && decide (h2 = '-') &&
    isDigitB d1 && isDigitB d2 &&
    validCalendarNums (10 * digitVal y1 + digitVal y2)
      (10 * digitVal m1 + digitVal m2) (10 * digitVal d1 + digitVal d2)
  | [y1, h1, m1, m2, h2, d1, d2] =>
    isDigitB y1 &&
    decide (h1 = '-') && isDigitB m1 && isDigitB m2 && decide (h2 = '-') &&
    isDigitB d1 && isDigitB d2 &&
    validCalendarNums (digitVal y1)
      (10 * digitVal m1 + digitVal m2) (10 * digitVal d1 + digitVal d2)
  | _ => false

/- ## Model of ImageColor.getrgb and parse_color_to_rgba (source lines 60-71)

Pillow lowercases the input, first consults its named-color table and then
the hex patterns (three, four, six or eight hex digits after a number
sign); failure raises ValueError, which the source catches and turns into
the default white.  The named-color table is modelled restricted to common
entries (the functional rgb and hsl notations, and the full 148-name table,
are not exercised by this program's defaults or by the claims; unmodelled
inputs behave like parse failures). -/

inductive PyColor where
  | rgb (r g b : Nat)
  | rgba (r g b a : Nat)
deriving DecidableEq

/-- Value of a lowercase hexadecimal digit. -/
def hexVal (c : Char) : Option Nat :=
  if isDigitB c then some (digitVal c)
  else if 97 ≤ c.toNat && c.toNat ≤ 102 then some (c.toNat - 87)
  else none

/-- Hex color body parse, by digit count, mirroring the Pillow patterns. -/
def getrgbHex : List Char → Option PyColor
  | [a, b, c] =>
    match hexVal a, hexVal b, hexVal c with
    | some va, some vb, some vc => some (PyColor.rgb (17 * va) (17 * vb) (17 * vc))
    | _, _, _ => none
  | [a, b, c, d] =>
    match hexVal a, hexVal b, hexVal c, hexVal d with
    | some va, some vb, some vc, some vd =>
      some (PyColor.rgba (17 * va) (17 * vb) (17 * vc) (17 * vd))
    | _, _, _, _ => none
  | [a, b, c, d, e, f] =>
    match hexVal a, hexVal b, hexVal c, hexVal d, hexVal e, hexVal f with
    | some va, some vb, some vc, some vd, some ve, some vf =>
      some (PyColor.rgb (16 * va + vb) (16 * vc + vd) (16 * ve + vf))
    | _, _, _, _, _, _ => none
  | [a, b, c, d, e, f, g, h] =>
    match hexVal a, hexVal b, hexVal c, hexVal d, hexVal e, hexVal f, hexVal g, hexVal h with
    | some va, some vb, some vc, some vd, some ve, some vf, some vg, some vh =>
      some (PyColor.rgba (16 * va + vb) (16 * vc + vd) (16 * ve + vf) (16 * vg + vh))
    | _, _, _, _, _, _, _, _ => none
  | _ => none

/-- Named-color table, restricted to common entries. -/
def colormapLookup (s : String) : Option PyColor :=
  if s = "white" then some (PyColor.rgb 255 255 255)
  else if s = "black" then some (PyColor.rgb 0 0 0)
  else if s = "red" then some (PyColor.rgb 255 0 0)
  else if s = "green" then some (PyColor.rgb 0 128 0)
  else if s = "blue" then some (PyColor.rgb 0 0 255)
  else if s = "yellow" then some (PyColor.rgb 255 255 0)
  else none

/-- Model of ImageColor.getrgb; None models the ValueError branch. -/
def getrgb (colorStr : String) : Option PyColor :=
  let s := pyLower colorStr
  match colormapLookup s with
  | some c => some c
  | none =>
    match s.data with
    | '#' :: rest => getrgbHex rest
    | _ => none

/-- Source lines 60-71: parse_color_to_rgba.  A three-channel result is
extended with alpha 255, a four-channel result is returned as is, and any
parse failure falls through to the default white. -/
def parse_color_to_rgba (colorStr : String) : Nat × Nat × Nat × Nat :=
  match getrgb colorStr with
  | some (PyColor.rgb r g b) => (r, g, b, 255)
  | some (PyColor.rgba r g b a) => (r, g, b, a)
  | none => (255, 255, 255, 255)

/- ## compute_position (source lines 74-93) -/

/-- Source lines 74-93: position keyword to draw origin.  Sizes and the
margin are Python integers; the center divisions use Python floor division;
no clamping is applied anywhere; an unknown keyword falls through to the
top-left default. -/
def compute_position (positionName : String) (imageSize : Int × Int)
    (textSize : Int × Int) (margin : Int) : Int × Int :=
  let W := imageSize.1
  let H := imageSize.2
  let w := textSize.1
  let h := textSize.2
  let pos := pyLower positionName
  if pos = "top-left" then (margin, margin)
  else if pos = "top-right" then (W - w - margin, margin)
  else if pos = "bottom-left" then (margin, H - h - margin)
  else if pos = "bottom-right" then (W - w - margin, H - h - margin)
  else if pos = "center" then (Int.fdiv (W - w) 2, Int.fdiv (H - h) 2)
  else if pos = "top-center" then (Int.fdiv (W - w) 2, margin)
  else if pos = "bottom-center" then (Int.fdiv (W - w) 2, H - h - margin)
  else (margin, margin)

/- ## Model of Pillow images and draw_text_on_image (source lines 96-120)

Images are modelled as a mode string, a size, and a total pixel map in RGBA
space.  Glyph rasterization is supplied by the font handle (the font is an
external input per the spec), as a bounding box and a coverage map; the
pixel-level blend of a text draw is an over blend weighted by coverage,
which fixes the observables the claims use: size, mode, and the sequence of
draw calls issued to the overlay. -/

abbrev RGBAColor := Nat × Nat × Nat × Nat

structure PILImage where
  mode : String
  width : Int
  height : Int
  px : Int → Int → RGBAColor

structure TextBBox where
  x0 : Int
  y0 : Int
  x1 : Int
  y1 : Int

structure Font where
  bbox : String → TextBBox
  coverage : String → Int → Int → Nat

/-- One recorded text-draw call on the overlay draw handle. -/
structure DrawCall where
  x : Int
  y : Int
  text : String
  fill : RGBAColor
deriving Repr

/-- The overlay draw handle: the overlay image plus the trace of text-draw
calls issued on it, in order. -/
structure OverlayDraw where
  img : PILImage
  calls : List DrawCall

/-- Model of img.convert to RGBA (source line 99): a new image of the same
size in RGBA mode; a source mode without alpha gets an opaque alpha
channel.  Pillow convert always allocates a fresh image and leaves its
receiver untouched. -/
def convertRGBA (img : PILImage) : PILImage :=
  { mode := "RGBA", width := img.width, height := img.height,
    px := fun x y =>
      if img.mode = "RGBA" then img.px x y
      else ((img.px x y).1, (img.px x y).2.1, (img.px x y).2.2.1, 255) }

/-- Model of Image.new with a constant fill (source line 100). -/
def imageNew (w h : Int) (c : RGBAColor) : PILImage :=
  { mode := "RGBA", width := w, height := h, px := fun _ _ => c }

/-- Source over blend of one pixel (integer arithmetic; rounding details of
the C implementation are not observable to any claim). -/
def overPixel (dst src : RGBAColor) : RGBAColor :=
  let sa := src.2.2.2
  let da := dst.2.2.2
  let outA := sa + da * (255 - sa) / 255
  if outA = 0 then (0, 0, 0, 0)
  else ((src.1 * sa * 255 + dst.1 * da * (255 - sa)) / (outA * 255),
        (src.2.1 * sa * 255 + dst.2.1 * da * (255 - sa)) / (outA * 255),
        (src.2.2.1 * sa * 255 + dst.2.2.1 * da * (255 - sa)) / (outA * 255),
        outA)

/-- Model of draw.text on the overlay handle: blends the glyph onto the
overlay pixels, weighted by the font's coverage at the offset from the draw
origin, and records the call.  Only the overlay inside the handle changes. -/
def drawTextCall (d : OverlayDraw) (x y : Int) (text : String) (font : Font)
    (fill : RGBAColor) : OverlayDraw :=
  { img := { mode := d.img.mode, width := d.img.width, height := d.img.height,
             px := fun px0 py0 =>
               let cov := font.coverage text (px0 - x) (py0 - y)
               if cov = 0 then d.img.px px0 py0
               else overPixel (d.img.px px0 py0)
                 (fill.1, fill.2.1, fill.2.2.1, fill.2.2.2 * cov / 255) },
    calls := d.calls ++ [{ x := x, y := y, text := text, fill := fill }] }

/-- The iteration domain of the two nested outline loops (source lines
111-112). -/
def neighborSteps : List Int := [-1, 0, 1]

/-- Source lines 109-115: the outline pass, two nested loops over the
neighbor offsets, skipping the center, drawing black with alpha 200. -/
def drawOutlinePass (d : OverlayDraw) (x y : Int) (text : String) (font : Font) : OverlayDraw :=
  neighborSteps.foldl
    (fun acc dx =>
      neighborSteps.foldl
        (fun acc2 dy =>
          if dx = 0 ∧ dy = 0 then acc2
          else drawTextCall acc2 (x + dx) (y + dy) text font (0, 0, 0, 200))
        acc)
    d

/-- Model of Image.alpha_composite (source line 119): a fresh RGBA image of
the base size, pixel-wise over blend of the overlay onto the base. -/
def alphaComposite (base over : PILImage) : PILImage :=
  { mode := "RGBA", width := base.width, height := base.height,
    px := fun x y => overPixel (base.px x y) (over.px x y) }

/-- The draw origin computed at source line 106: position mapping applied
to the converted base size and the measured text box. -/
def textOrigin (img : PILImage) (text : String) (font : Font)
    (position : String) (margin : Int) : Int × Int :=
  compute_position position ((convertRGBA img).width, (convertRGBA img).height)
    ((font.bbox text).x1 - (font.bbox text).x0, (font.bbox text).y1 - (font.bbox text).y0)
    margin

/-- Result record of one render call: the composited image, the trace of
text draws issued on the overlay, and the value of the input image after
the call (the source never writes to it: convert returns a fresh copy and
the draw handle targets the overlay). -/
structure RenderResult where
  result : PILImage
  overlayCalls : List DrawCall
  sourceAfter : PILImage

/-- Source lines 96-120: draw_text_on_image.  Convert the input to RGBA,
allocate a transparent overlay of the same size, measure the text, compute
the origin, optionally run the outline pass, draw the foreground text at
the origin, and alpha-composite overlay over base. -/
def draw_text_on_image (img : PILImage) (text : String) (font : Font)
    (colorRgba : RGBAColor) (position : String) (margin : Int) (outline : Bool) : RenderResult :=
  let base := convertRGBA img
  let overlay0 : OverlayDraw := { img := imageNew base.width base.height (255, 255, 255, 0), calls := [] }
  let bb := font.bbox text
  let textW := bb.x1 - bb.x0
  let textH := bb.y1 - bb.y0
  let xy := compute_position position (base.width, base.height) (textW, textH) margin
  let d1 := if outline then drawOutlinePass overlay0 xy.1 xy.2 text font else overlay0
  let d2 := drawTextCall d1 xy.1 xy.2 text font colorRgba
  { result := alphaComposite base d2.img, overlayCalls := d2.calls, sourceAfter := img }

/-- The spec's description of the outline offsets: all pairs with both
components in the set of minus one, zero, one, excluding the center. -/
def specOutlineOffsets : List (Int × Int) :=
  (neighborSteps.flatMap (fun dx => neighborSteps.map (fun dy => (dx, dy)))).filter
    (fun p => decide (p ≠ ((0 : Int), (0 : Int))))

/- ## Model of ensure_font (source lines 123-134)

Which font files load successfully is a property of the machine, so the
loading environment is an explicit input: the truetype loader maps a font
name to a handle or fails (None models the exception), and the bundled
bitmap default loader may itself fail. -/

structure FontEnv where
  truetype : String → Nat → Option Font
  loadDefault : Option Font

/-- Source lines 123-134: ensure_font.  With a user path, try that path;
otherwise try the bundled DejaVuSans; on either exception fall back to
load_default; if that also fails, raise the runtime error (modelled as the
error branch). -/
def ensure_font (env : FontEnv) (fontPath : Option String) (size : Nat) : Except String Font :=
  match (match fontPath with
         | some p => env.truetype p size
         | none => env.truetype "DejaVuSans.ttf" size) with
  | some f => Except.ok f
  | none =>
    match env.loadDefault with
    | some f => Except.ok f
    | none => Except.error "无法加载字体，请传入 --font 字体文件。"

/-- A concrete font handle standing for the Pillow bundled bitmap default
font returned by load_default. -/
def pilDefaultFont : Font :=
  { bbox := fun _ => { x0 := 0, y0 := 0, x1 := 0, y1 := 0 },
    coverage := fun _ _ _ => 0 }

/-- A loading environment in which no truetype font is available but the
bundled default loads. -/
def envNoTruetype : FontEnv :=
  { truetype := fun _ _ => none, loadDefault := some pilDefaultFont }

/-- A loading environment in which nothing loads at all. -/
def envNoFonts : FontEnv :=
  { truetype := fun _ _ => none, loadDefault := none }

/- ## Concrete inputs used by witnesses and counterexamples -/

/-- ASCII bytes of the tag value 0999:01:01 00:00:00. -/
def bytesYear999 : List Nat :=
  [48, 57, 57, 57, 58, 48, 49, 58, 48, 49, 32, 48, 48, 58, 48, 48, 58, 48, 48]

/-- A metadata container whose only candidate tag carries a parsable
timestamp with year 999. -/
def exifYear999 : ExifDict := [("Exif", [(36867, RawValue.bytes bytesYear999)])]

/-- A metadata container whose only candidate tag carries the hyphenated
value from the tolerant-parse claim. -/
def exifHyphenated : ExifDict := [("Exif", [(36867, RawValue.str "2023-05-01 12:00:00")])]

/-- A fallback timestamp for witnesses: 2024-03-15 10:20:30. -/
def fbMarch15 : PyDateTime :=
  { year := 2024, month := 3, day := 15, hour := 10, minute := 20, second := 30 }

/- ## Helper lemmas -/

theorem daysInMonth_le (y m : Nat) : daysInMonth y m ≤ 31 := by
  unfold daysInMonth
  split <;> first | omega | split <;> omega

theorem digitVal_digitChar (k : Nat) (hk : k < 10) : digitVal (digitChar k) = k := by
  interval_cases k <;> rfl

theorem isDigitB_digitChar (k : Nat) (hk : k < 10) : isDigitB (digitChar k) = true := by
  interval_cases k <;> rfl

theorem digitVal_digitChar_mod (n : Nat) : digitVal (digitChar (n % 10)) = n % 10 :=
  digitVal_digitChar _ (Nat.mod_lt _ (by omega))

theorem isDigitB_digitChar_mod (n : Nat) : isDigitB (digitChar (n % 10)) = true :=
  isDigitB_digitChar _ (Nat.mod_lt _ (by omega))

/- ## Claim C1 -/

/-- C1 counterexample: the fallback parse path does not produce the date
2023-05-01 for the hyphenated tag value. -/
theorem tolerant_parse_claim_false :
    tolerant_fallback_parse "2023-05-01 12:00:00" ≠ some "2023-05-01" := by decide

/-- C1 (amended): for the tag value 2023-05-01 12:00:00, the fallback path
replaces the first two colons, which lie in the time portion, so the retry
string is 2023-05-01 12-00-00; that fails to parse under the retry format,
the fallback path yields no date, the value parse as a whole fails, and a
container holding only this value resolves no EXIF date. -/
theorem tolerant_parse_behavior :
    String.mk (replaceColonsFirst 2 ("2023-05-01 12:00:00").data) = "2023-05-01 12-00-00" ∧
    strptimeYMDHMS '-' "2023-05-01 12-00-00" = none ∧
    tolerant_fallback_parse "2023-05-01 12:00:00" = none ∧
    parse_tag_value "2023-05-01 12:00:00" = none ∧
    get_exif_date (some exifHyphenated) = none := by
  exact ⟨rfl, rfl, rfl, rfl, rfl⟩

/- ## Claim C2 -/

/-- C2 counterexample: with a user font path whose truetype load fails but
the bundled default available, ensure_font silently returns the default
font handle instead of raising. -/
theorem ensure_font_claim_false :
    ensure_font envNoTruetype (some "arial.ttf") 36 = Except.ok pilDefaultFont ∧
    (ensure_font envNoTruetype (some "arial.ttf") 36).isOk = true := ⟨rfl, rfl⟩

/-- C2 (amended): when the requested font cannot be loaded, ensure_font
falls back to the bundled default font (a different visual style); it
raises the font-unavailable error only when the default font also fails to
load. -/
theorem ensure_font_fallback (env : FontEnv) (p : String) (size : Nat)
    (hfail : env.truetype p size = none) :
    (∀ f, env.loadDefault = some f → ensure_font env (some p) size = Except.ok f) ∧
    (env.loadDefault = none →
      ensure_font env (some p) size = Except.error "无法加载字体，请传入 --font 字体文件。") := by
  constructor
  · intro f hf
    simp [ensure_font, hfail, hf]
  · intro hf
    simp [ensure_font, hfail, hf]

/-- Witness for the amended C2 theorem at a concrete environment in which
nothing loads. -/
theorem ensure_font_fallback_witness :
    ensure_font envNoFonts (some "arial.ttf") 36 =
      Except.error "无法加载字体，请传入 --font 字体文件。" :=
  (ensure_font_fallback envNoFonts "arial.ttf" 36 rfl).2 rfl

/- ## Claim C6 -/

/-- C6: the position-to-origin mapping is exactly the spec table, with
Python floor division for the centered coordinates and no clamping; the
800 by 600 instances evaluate as claimed, and an oversized text box yields
a negative origin. -/
theorem compute_position_table :
    (∀ W H w h m : Int,
      compute_position "top-left" (W, H) (w, h) m = (m, m) ∧
      compute_position "top-right" (W, H) (w, h) m = (W - w - m, m) ∧
      compute_position "bottom-left" (W, H) (w, h) m = (m, H - h - m) ∧
      compute_position "bottom-right" (W, H) (w, h) m = (W - w - m, H - h - m) ∧
      compute_position "center" (W, H) (w, h) m = (Int.fdiv (W - w) 2, Int.fdiv (H - h) 2) ∧
      compute_position "top-center" (W, H) (w, h) m = (Int.fdiv (W - w) 2, m) ∧
      compute_position "bottom-center" (W, H) (w, h) m = (Int.fdiv (W - w) 2, H - h - m)) ∧
    compute_position "bottom-right" (800, 600) (120, 30) 10 = (670, 560) ∧
    compute_position "center" (800, 600) (120, 30) 10 = (340, 285) ∧
    compute_position "bottom-right" (100, 100) (200, 30) 10 = (-110, 60) :=
  ⟨fun _ _ _ _ _ => ⟨rfl, rfl, rfl, rfl, rfl, rfl, rfl⟩, rfl, rfl, rfl⟩

/- ## Claim C7 -/

/-- C7: with outline requested, the overlay receives exactly eight text
draws, one per neighbor offset with both components in the set of minus
one, zero, one and the center excluded, each filled black with alpha 200 at
the origin plus the offset, followed by one final draw of the foreground
color at the exact unoffset origin. -/
theorem draw_text_outline_calls (img : PILImage) (text : String) (font : Font)
    (colorRgba : RGBAColor) (position : String) (margin : Int) :
    (draw_text_on_image img text font colorRgba position margin true).overlayCalls =
      specOutlineOffsets.map (fun off =>
        { x := (textOrigin img text font position margin).1 + off.1,
          y := (textOrigin img text font position margin).2 + off.2,
          text := text, fill := ((0 : Nat), (0 : Nat), (0 : Nat), (200 : Nat)) }) ++
      [{ x := (textOrigin img text font position margin).1,
         y := (textOrigin img text font position margin).2,
         text := text, fill := colorRgba }] := rfl

/- ## Claim C10 -/

/-- C10: for every input image, text, font, color, position, margin, and
outline flag, the compositor returns an RGBA image with the input's width
and height, and the input image value is untouched after the call (the
source draws only on the fresh overlay and composites onto a converted
copy). -/
theorem draw_text_frame_effect (img : PILImage) (text : String) (font : Font)
    (colorRgba : RGBAColor) (position : String) (margin : Int) (outline : Bool) :
    (draw_text_on_image img text font colorRgba position margin outline).result.mode = "RGBA" ∧
    (draw_text_on_image img text font colorRgba position margin outline).result.width = img.width ∧
    (draw_text_on_image img text font colorRgba position margin outline).result.height = img.height ∧
    (draw_text_on_image img text font colorRgba position margin outline).sourceAfter = img :=
  ⟨rfl, rfl, rfl, rfl⟩

/- ## Claim C3 -/

theorem scanCandidates_first (exif : ExifDict) (l : List (String × Nat)) :
    scanCandidates exif l = (l.filterMap (candidate_date exif)).head? := by
  induction l with
  | nil => rfl
  | cons c rest ih =>
    simp only [scanCandidates, List.filterMap_cons]
    cases hc : candidate_date exif c with
    | none => simpa using ih
    | some d => simp

/-- C3: for every metadata container, the resolver's answer is the head of
the candidate list mapped through the per-candidate extraction (present,
truthy, decoded, parsed under one of the two formats) in the fixed
priority order: the first candidate that extracts wins, candidates that
are absent, empty, or unparsable after both attempts are skipped without
aborting, and a later candidate is never preferred over an earlier
successful one. -/
theorem get_exif_date_first_match (exif : ExifDict) :
    get_exif_date (some exif) = (candidatesList.filterMap (candidate_date exif)).head? :=
  scanCandidates_first exif candidatesList

/- ## Validity of every formatted output -/

theorem strftime_valid_relaxed (dt : PyDateTime)
    (h : validCalendarNums dt.year dt.month dt.day = true) (hy : dt.year ≤ 9999) :
    isValidDateStringRelaxed (strftimeYMD dt) = true := by
  have hb : 1 ≤ dt.year ∧ 1 ≤ dt.month ∧ dt.month ≤ 12 ∧ 1 ≤ dt.day ∧
      dt.day ≤ daysInMonth dt.year dt.month := by
    simpa [validCalendarNums, and_assoc] using h
  have hd31 : dt.day ≤ 31 := le_trans hb.2.2.2.2 (daysInMonth_le _ _)
  have hm : 10 * (dt.month / 10 % 10) + dt.month % 10 = dt.month := by omega
  have hd : 10 * (dt.day / 10 % 10) + dt.day % 10 = dt.day := by omega
  by_cases h1 : dt.year < 10
  · simp only [strftimeYMD, natDecimal, if_pos h1, List.cons_append, List.nil_append,
      isValidDateStringRelaxed]
    simp [isDigitB_digitChar _ h1, isDigitB_digitChar_mod, digitVal_digitChar _ h1,
      digitVal_digitChar_mod, hm, hd, h]
  · by_cases h2 : dt.year < 100
    · have e1 : digitVal (digitChar (dt.year / 10)) = dt.year / 10 :=
        digitVal_digitChar _ (by omega)
      have e2 : isDigitB (digitChar (dt.year / 10)) = true :=
        isDigitB_digitChar _ (by omega)
      have hyr : 10 * (dt.year / 10) + dt.year % 10 = dt.year := by omega
      simp only [strftimeYMD, natDecimal, if_neg h1, if_pos h2, List.cons_append,
        List.nil_append, isValidDateStringRelaxed]
      simp [e1, e2, isDigitB_digitChar_mod, digitVal_digitChar_mod, hm, hd, hyr, h]
    · by_cases h3 : dt.year < 1000
      · have e1 : digitVal (digitChar (dt.year / 100)) = dt.year / 100 :=
          digitVal_digitChar _ (by omega)
        have e2 : isDigitB (digitChar (dt.year / 100)) = true :=
          isDigitB_digitChar _ (by omega)
        have hyr : 100 * (dt.year / 100) + 10 * (dt.year / 10 % 10) + dt.year % 10 = dt.year := by
          omega
        simp only [strftimeYMD, natDecimal, if_neg h1, if_neg h2, if_pos h3, List.cons_append,
          List.nil_append, isValidDateStringRelaxed]
        simp [e1, e2, isDigitB_digitChar_mod, digitVal_digitChar_mod, hm, hd, hyr, h]
      · have hyr : 1000 * (dt.year / 1000 % 10) + 100 * (dt.year / 100 % 10) +
            10 * (dt.year / 10 % 10) + dt.year % 10 = dt.year := by omega
        simp only [strftimeYMD, natDecimal, if_neg h1, if_neg h2, if_neg h3, List.cons_append,
          List.nil_append, isValidDateStringRelaxed]
        simp [isDigitB_digitChar_mod, digitVal_digitChar_mod, hm, hd, hyr, h]

theorem strftime_valid_strict (dt : PyDateTime)
    (h : validCalendarNums dt.year dt.month dt.day = true)
    (h1000 : 1000 ≤ dt.year) (hy : dt.year ≤ 9999) :
    isValidDateString (strftimeYMD dt) = true := by
  have hb : 1 ≤ dt.year ∧ 1 ≤ dt.month ∧ dt.month ≤ 12 ∧ 1 ≤ dt.day ∧
      dt.day ≤ daysInMonth dt.year dt.month := by
    simpa [validCalendarNums, and_assoc] using h
  have hd31 : dt.day ≤ 31 := le_trans hb.2.2.2.2 (daysInMonth_le _ _)
  have hm : 10 * (dt.month / 10 % 10) + dt.month % 10 = dt.month := by omega
  have hd : 10 * (dt.day / 10 % 10) + dt.day % 10 = dt.day := by omega
  have hyr : 1000 * (dt.year / 1000 % 10) + 100 * (dt.year / 100 % 10) +
      10 * (dt.year / 10 % 10) + dt.year % 10 = dt.year := by omega
  simp only [strftimeYMD, natDecimal, if_neg (by omega : ¬ dt.year < 10),
    if_neg (by omega : ¬ dt.year < 100), if_neg (by omega : ¬ dt.year < 1000),
    List.cons_append, List.nil_append, isValidDateString]
  simp [isDigitB_digitChar_mod, digitVal_digitChar_mod, hm, hd, hyr, h]

theorem strptime_some_valid (sep : Char) (s : String) (dt : PyDateTime)
    (h : strptimeYMDHMS sep s = some dt) : validPyDateTime dt = true := by
  cases hp : parseRawYMDHMS sep s.data with
  | none => simp [strptimeYMDHMS, hp] at h
  | some dt2 =>
    by_cases hv : validPyDateTime dt2 = true
    · have hEq : dt2 = dt := by simpa [strptimeYMDHMS, hp, hv] using h
      subst hEq
      exact hv
    · simp [strptimeYMDHMS, hp, hv] at h

theorem validPy_calendar (dt : PyDateTime) (h : validPyDateTime dt = true) :
    validCalendarNums dt.year dt.month dt.day = true ∧ dt.year ≤ 9999 := by
  simp only [validPyDateTime, Bool.and_eq_true, decide_eq_true_eq] at h
  simp only [validCalendarNums, Bool.and_eq_true, decide_eq_true_eq]
  omega

theorem parse_tag_value_valid (s out : String) (h : parse_tag_value s = some out) :
    isValidDateStringRelaxed out = true := by
  unfold parse_tag_value tolerant_fallback_parse at h
  cases h1 : strptimeYMDHMS ':' s with
  | some dt =>
    rw [h1] at h
    cases h
    exact strftime_valid_relaxed dt (validPy_calendar dt (strptime_some_valid ':' s dt h1)).1
      (validPy_calendar dt (strptime_some_valid ':' s dt h1)).2
  | none =>
    rw [h1] at h
    cases h2 : strptimeYMDHMS '-' (String.mk (replaceColonsFirst 2 s.data)) with
    | some dt =>
      rw [h2] at h
      cases h
      exact strftime_valid_relaxed dt (validPy_calendar dt (strptime_some_valid '-' _ dt h2)).1
        (validPy_calendar dt (strptime_some_valid '-' _ dt h2)).2
    | none =>
      rw [h2] at h
      exact Option.noConfusion h

theorem candidate_date_valid (exif : ExifDict) (c : String × Nat) (out : String)
    (h : candidate_date exif c = some out) : isValidDateStringRelaxed out = true := by
  unfold candidate_date at h
  cases hv : List.lookup c.2 (dictGetIFD exif c.1) with
  | none =>
    simp only [hv] at h
    exact Option.noConfusion h
  | some v =>
    simp only [hv] at h
    by_cases ht : truthyRaw v = true
    · rw [if_pos ht] at h
      exact parse_tag_value_valid _ _ h
    · rw [if_neg ht] at h
      exact Option.noConfusion h

theorem scan_valid (exif : ExifDict) (l : List (String × Nat)) (out : String)
    (h : scanCandidates exif l = some out) : isValidDateStringRelaxed out = true := by
  induction l with
  | nil => exact Option.noConfusion h
  | cons c rest ih =>
    simp only [scanCandidates] at h
    split at h
    next d heq =>
      cases h
      exact candidate_date_valid exif c _ heq
    next heq => exact ih h

theorem get_exif_date_valid (meta : Option ExifDict) (out : String)
    (h : get_exif_date meta = some out) : isValidDateStringRelaxed out = true := by
  cases meta with
  | none => exact Option.noConfusion h
  | some exif => exact scan_valid exif candidatesList out h

/- ## Claim C4 -/

/-- C4: whenever no candidate tag yields a valid date (including the cases
of an absent or unreadable metadata block, modelled as the None container),
the resolved date string equals the filesystem last-modified timestamp
formatted by the date format string; for any real filesystem date (year at
least 1000) that formatted string matches the four-digit pattern. -/
theorem resolve_date_fallback (meta : Option ExifDict) (mtime : PyDateTime)
    (h : get_exif_date meta = none) :
    resolve_date meta mtime = fallback_file_date mtime ∧
    (validCalendarNums mtime.year mtime.month mtime.day = true → 1000 ≤ mtime.year →
      mtime.year ≤ 9999 → isValidDateString (fallback_file_date mtime) = true) := by
  constructor
  · simp [resolve_date, pyOrStr, h]
  · intro hv h1000 h9999
    exact strftime_valid_strict mtime hv h1000 h9999

/-- Witness for C4: a container whose only tag value fails both parses,
together with the unreadable-container case, both resolve to the formatted
fallback date. -/
theorem resolve_date_fallback_witness :
    resolve_date (some exifHyphenated) fbMarch15 = fallback_file_date fbMarch15 ∧
    resolve_date none fbMarch15 = "2024-03-15" :=
  ⟨(resolve_date_fallback (some exifHyphenated) fbMarch15 rfl).1,
   ((resolve_date_fallback none fbMarch15 rfl).1).trans rfl⟩

/- ## Claim C5 -/

/-- C5 counterexample: a readable container whose first candidate carries
the parsable value 0999:01:01 00:00:00 resolves to the nine-character
string 999-01-01, because the platform does not zero-pad the year
directive for years below 1000; resolution does not raise, but the output
does not match the four-digit pattern. -/
theorem resolver_pattern_claim_false :
    resolve_date (some exifYear999) fbMarch15 = "999-01-01" ∧
    isValidDateString (resolve_date (some exifYear999) fbMarch15) = false := ⟨rfl, rfl⟩

/-- C5 (amended): date resolution is total (the embedding returns a plain
string for every container and fallback, mirroring the source's blanket
exception handlers), and for every metadata container and valid fallback
timestamp the output is a syntactically valid calendar date string of the
form year, hyphen, two-digit month, hyphen, two-digit day, where the year
is an unpadded decimal of one to four digits; the output matches the exact
four-digit YYYY-MM-DD pattern whenever the formatted date's year is at
least 1000 (true of every realistic capture date and filesystem
timestamp). -/
theorem resolve_date_always_valid (meta : Option ExifDict) (mtime : PyDateTime)
    (h : validCalendarNums mtime.year mtime.month mtime.day = true)
    (h9 : mtime.year ≤ 9999) :
    isValidDateStringRelaxed (resolve_date meta mtime) = true ∧
    (∀ dt : PyDateTime, validCalendarNums dt.year dt.month dt.day = true →
      1000 ≤ dt.year → dt.year ≤ 9999 → isValidDateString (strftimeYMD dt) = true) := by
  constructor
  · cases hg : get_exif_date meta with
    | none =>
      simpa [resolve_date, pyOrStr, hg, fallback_file_date] using
        strftime_valid_relaxed mtime h h9
    | some s =>
      by_cases hs : s = ""
      · simpa [resolve_date, pyOrStr, hg, hs, fallback_file_date] using
          strftime_valid_relaxed mtime h h9
      · simpa [resolve_date, pyOrStr, hg, hs] using get_exif_date_valid meta s hg
  · intro dt hv h1000 h9999
    exact strftime_valid_strict dt hv h1000 h9999

/-- Witness for the amended C5 theorem at a concrete unreadable container
and a concrete well-formed container, with a concrete fallback date. -/
theorem resolve_date_always_valid_witness :
    isValidDateStringRelaxed (resolve_date none fbMarch15) = true ∧
    isValidDateStringRelaxed (resolve_date (some exifYear999) fbMarch15) = true :=
  ⟨(resolve_date_always_valid none fbMarch15 (by decide) (by decide)).1,
   (resolve_date_always_valid (some exifYear999) fbMarch15 (by decide) (by decide)).1⟩

/- ## Claim C8 -/

/-- C8: the hex string and the color name for white both parse to opaque
white, and in general every three-channel parse result is extended with
alpha 255. -/
theorem parse_color_rgba_spec :
    parse_color_to_rgba "#FFFFFF" = (255, 255, 255, 255) ∧
    parse_color_to_rgba "white" = (255, 255, 255, 255) ∧
    ∀ s r g b, getrgb s = some (PyColor.rgb r g b) → parse_color_to_rgba s = (r, g, b, 255) := by
  refine ⟨rfl, rfl, ?_⟩
  intro s r g b h
  simp [parse_color_to_rgba, h]

/-- Witness for the alpha-extension part of C8 at a concrete hex color. -/
theorem parse_color_rgba_spec_witness :
    parse_color_to_rgba "#102030" = (16, 32, 48, 255) :=
  parse_color_rgba_spec.2.2 "#102030" 16 32 48 rfl

/- ## Claim C9 -/

/-- C9: color parsing is total (the embedding returns a quadruple for every
string, mirroring the blanket exception handler of the source), and every
string on which the color parse fails yields the default opaque white. -/
theorem parse_color_default_white (s : String) (h : getrgb s = none) :
    parse_color_to_rgba s = (255, 255, 255, 255) := by
  simp [parse_color_to_rgba, h]

/-- Witness for C9 at a concrete unparsable color string. -/
theorem parse_color_default_white_witness :
    parse_color_to_rgba "not-a-color" = (255, 255, 255, 255) :=
  parse_color_default_white "not-a-color" rfl
